import Mathlib

/-
Shallow embedding of `src/api.js` — the es-shim API validator.

The script validates that a module follows the "shim contract": it exports a
callable with companion sub-modules `implementation`, `polyfill`, `shim` and
`auto`.  We embed the validation logic as pure Lean functions over an explicit
environment `Env` modelling the Node.js runtime surface the script touches:
`require`, function invocation, property access, `fs.readdirSync`,
`fs.statSync` (which Node resolves against the process working directory when
given a relative path), and the script's own `__dirname`.

Emitted tape assertions, skip comments, and spawned side-effect probes are
collected into a `List TraceItem`, in the order the script emits them; subtest
nesting is flattened (subtest names only matter where a subtest itself is the
skip record, which we keep).
-/

set_option autoImplicit false

namespace EsShimApi

/-- JavaScript runtime values, as far as `api.js` distinguishes them:
functions and plain objects identified by an id (so reference equality is
equality of ids), `EvalError` instances (the wrapper produced by
`requireOrEvalError`, or a genuinely exported `EvalError`), arrays of
sub-package name strings (`elems`, with `none` for holes of a sparse array,
plus `extras` for additional enumerable own string keys in insertion order),
strings and `undefined`. -/
inductive JsVal where
  | vfunc (id : Nat)
  | vobj (id : Nat)
  | vevalError (msg : String)
  | varray (elems : List (Option String)) (extras : List String)
  | vstr (s : String)
  | vundefined
deriving DecidableEq, Repr

/-- JavaScript `typeof`. `EvalError` instances and arrays are objects. -/
def typeofVal : JsVal → String
  | .vfunc _ => "function"
  | .vobj _ => "object"
  | .vevalError _ => "object"
  | .varray _ _ => "object"
  | .vstr _ => "string"
  | .vundefined => "undefined"

/-- `v instanceof EvalError`. -/
def isEvalErrorB : JsVal → Bool
  | .vevalError _ => true
  | _ => false

/-- Message of an `EvalError` instance (used only on values where
`isEvalErrorB` holds). -/
def evalErrorMsg : JsVal → String
  | .vevalError m => m
  | _ => ""

/-- Split a character list on `/` (helper for the POSIX path functions). -/
def splitSlash : List Char → List (List Char)
  | [] => [[]]
  | c :: rest =>
    let r := splitSlash rest
    if c = '/' then [] :: r
    else
      match r with
      | [] => [[c]]
      | h :: t => (c :: h) :: t

/-- Re-join character-list components with `/`. -/
def joinSlash : List (List Char) → List Char
  | [] => []
  | [p] => p
  | p :: rest => p ++ '/' :: joinSlash rest

/-- `path.dirname`, simplified to the POSIX relative paths the script builds:
everything before the final `/`, or `.` when there is no separator. -/
def pathDirname (s : String) : String :=
  let parts := splitSlash s.data
  if parts.length ≤ 1 then "."
  else ⟨joinSlash parts.dropLast⟩

/-- `path.basename`: the component after the final `/`. -/
def pathBasename (s : String) : String :=
  match (splitSlash s.data).getLast? with
  | some last => ⟨last⟩
  | none => s

/-- `path.join` of two segments, simplified to the POSIX shapes the script
uses: `join('.', b) = b`, `join(a, '/b') = a ++ '/b'`, `join(a, b) = a/b`. -/
def pathJoin (a b : String) : String :=
  if a = "" then b
  else if a = "." then b
  else
    match b.data with
    | '/' :: _ => a ++ b
    | _ => a ++ "/" ++ b

/-- `d.startsWith('.')`. -/
def startsWithDot (d : String) : Bool :=
  match d.data with
  | c :: _ => c = '.'
  | [] => false

/-- The Node.js runtime surface `api.js` touches.  `req` is `require`,
applied to the exact string the script passes (the environment itself encodes
how Node resolves it: package names, paths relative to the process working
directory, or `./`-relative paths resolved against the requiring script's own
directory).  `call` invokes a function value (by id) with no arguments;
`getProp` reads a property; `readdir` is `fs.readdirSync`; `stat` is
`fs.statSync(p).isDirectory()` for the exact path string `p` the script
passes, which the OS resolves against the process working directory when
relative; `scriptDir` is the script's `__dirname`.  `Except.error` models a
thrown exception carrying the error message. -/
structure Env where
  req : String → Except String JsVal
  call : Nat → Except String JsVal
  getProp : JsVal → String → JsVal
  readdir : String → Except String (List String)
  stat : String → Except String Bool
  scriptDir : String

/-- The run configuration parsed from the command line (lines 27–31 of
`api.js`): `--bound`, `--property`, `--skip-shim-returns-polyfill`,
`--skip-auto-shim`, `--multi`. -/
structure Config where
  isBound : Bool
  isProperty : Bool
  skipShimPolyfill : Bool
  skipAutoShim : Bool
  isMulti : Bool

/-- One emitted test event: a pass/fail assertion with its description, a
skip record (a tape-skipped subtest or a `# SKIP` comment), an informational
comment, or a spawned side-effect probe.  A probe carries the script path,
the child working directory, the stdio mode, the declared assertion plan, and
the single close-handler assertion (description plus the predicate applied to
the child's exit code). -/
inductive TraceItem where
  | assert (desc : String) (ok : Bool)
  | skipRecord (desc : String)
  | comment (text : String)
  | spawn (script cwd stdio : String) (plan : Nat) (closeDesc : String)
      (onClose : Int → Bool)

/-- `requireOrEvalError` (lines 52–58): `require` the name; a thrown error is
caught and converted into an `EvalError` carrying the original message. -/
def requireOrEvalError (env : Env) (name : String) : JsVal :=
  match env.req name with
  | .ok v => v
  | .error m => .vevalError m

/-- Invoke a JS value with no arguments: only functions are callable, and a
call may itself throw. -/
def callVal (env : Env) (v : JsVal) : Except String JsVal :=
  match v with
  | .vfunc id => env.call id
  | _ => .error "is not a function"

/-- `st.equal(lhs, f(), desc)`: a throw while evaluating `f()` is caught by
tape and fails the enclosing subtest. -/
def eqToCallAssert (env : Env) (d : String) (lhs f : JsVal) : TraceItem :=
  match callVal env f with
  | .ok r => .assert d (decide (lhs = r))
  | .error _ => .assert d false

/-- `st.equal(f(), g(), desc)`: either call throwing fails the subtest. -/
def callEqCallAssert (env : Env) (d : String) (f g : JsVal) : TraceItem :=
  match callVal env f, callVal env g with
  | .ok a, .ok b => .assert d (decide (a = b))
  | _, _ => .assert d false

/-- The close handler of the side-effect probe (line 70–72):
`st.equal(code, 0, 'auto invokes shim')`. -/
def autoOnClose : Int → Bool := fun code => decide (code = 0)

/-- `testAutoModule` (lines 59–75): when `--skip-auto-shim` is set, only a
skip record; otherwise `require` the package's `auto` entry (an uncaught
throw fails the subtest), then spawn the mode-appropriate probe script from
the validator's own directory, with working directory `packageDir`,
inherited stdio, a plan of one assertion, resolved by the close handler. -/
def testAutoModule (env : Env) (cfg : Config) (pre packageDir : String)
    (asMulti : Bool) : List TraceItem :=
  if cfg.skipAutoShim then [.skipRecord "auto is present"]
  else
    match env.req (pathJoin packageDir "/auto") with
    | .error _ => [.assert (pre ++ "auto") false]
    | .ok _ =>
      [.comment "auto is present (pass `--skip-auto-shim` to skip this test)",
       .spawn (pathJoin env.scriptDir (if asMulti then "multiAutoTest.js" else "autoTest.js"))
         packageDir "inherit" 1 "auto invokes shim" autoOnClose]

/-- Description of the `bound` subtest (line 89), which tape records as a
skipped subtest when `--bound` is set. -/
def boundTestDesc : String := "module is NOT bound (pass `--bound` to skip this test)"

/-- Description of the shim-returns-polyfill check (line 128). -/
def shimPolyfillMsg : String :=
  "shim returns polyfill (pass `--skip-shim-returns-polyfill` to skip this test)"

/-- The `export` subtest (lines 87–94): the main export's type check, then
the bound-identity subtest (a tape skip record when `--bound` is set,
otherwise the reference equality with the invoked polyfill getter). -/
def exportSubtest (env : Env) (cfg : Config) (module getPolyfill : JsVal) :
    List TraceItem :=
  .assert "module is a function" (decide (typeofVal module = "function")) ::
  (if cfg.isBound then [TraceItem.skipRecord boundTestDesc]
   else [eqToCallAssert env "module.exports === getPolyfill()" module getPolyfill])

/-- The `implementation` subtest (lines 96–108): linkage skipped in multi
mode, type check skipped under `--property`. -/
def implementationSubtest (env : Env) (cfg : Config) (module implementation : JsVal) :
    List TraceItem :=
  (if cfg.isMulti then
    [TraceItem.skipRecord "module.exports.implementation === implementation.js"]
   else
    [TraceItem.assert "module.exports.implementation === implementation.js"
      (decide (implementation = env.getProp module "implementation"))]) ++
  (if cfg.isProperty then
    [TraceItem.skipRecord "implementation that is a data property need not be a function"]
   else
    [TraceItem.assert "implementation is a function (pass `--property` to skip this test)"
      (decide (typeofVal implementation = "function"))])

/-- The `polyfill` subtest (lines 110–118): linkage skipped in multi mode,
type check always run. -/
def polyfillSubtest (env : Env) (cfg : Config) (module getPolyfill : JsVal) :
    List TraceItem :=
  (if cfg.isMulti then
    [TraceItem.skipRecord "module.exports.getPolyfill === polyfill.js"]
   else
    [TraceItem.assert "module.exports.getPolyfill === polyfill.js"
      (decide (getPolyfill = env.getProp module "getPolyfill"))]) ++
  [TraceItem.assert "getPolyfill is a function" (decide (typeofVal getPolyfill = "function"))]

/-- The `shim` subtest (lines 120–136): linkage skipped in multi mode, type
check always run, and — gated on the shim actually being a function — the
shim-returns-polyfill reference equality, which only `--skip-shim-returns-polyfill`
turns into a skip record. -/
def shimSubtest (env : Env) (cfg : Config) (shim getPolyfill : JsVal)
    (module : JsVal) : List TraceItem :=
  (if cfg.isMulti then
    [TraceItem.skipRecord "module.exports.shim === shim.js"]
   else
    [TraceItem.assert "module.exports.shim === shim.js"
      (decide (shim = env.getProp module "shim"))]) ++
  [TraceItem.assert "shim is a function" (decide (typeofVal shim = "function"))] ++
  (if typeofVal shim = "function" then
    (if cfg.skipShimPolyfill then [TraceItem.skipRecord shimPolyfillMsg]
     else [callEqCallAssert env shimPolyfillMsg shim getPolyfill])
   else [])

/-- `doActualValidation` (lines 76–141): load the main module (returning the
`EvalError` wrapper at once if loading failed), load the three companion
sub-modules, then emit the export / implementation / polyfill / shim subtests
and the auto subtest in order.  Returns the emitted trace together with the
function's return value (`some msg` when the main module came back as an
`EvalError`, `none` for `void undefined`). -/
def doActualValidation (env : Env) (cfg : Config) (packageDir name : String) :
    List TraceItem × Option String :=
  let module := requireOrEvalError env name
  if isEvalErrorB module then ([], some (evalErrorMsg module))
  else
    let implementation := requireOrEvalError env (packageDir ++ "/implementation")
    let shim := requireOrEvalError env (packageDir ++ "/shim")
    let getPolyfill := requireOrEvalError env (packageDir ++ "/polyfill")
    let pre := if cfg.isMulti then pathBasename packageDir ++ ": " else ""
    (exportSubtest env cfg module getPolyfill
      ++ implementationSubtest env cfg module implementation
      ++ polyfillSubtest env cfg module getPolyfill
      ++ shimSubtest env cfg shim getPolyfill module
      ++ testAutoModule env cfg pre packageDir false, none)

/-- The enumerable own keys of an array: the present indices (as decimal
strings, ascending) followed by the extra string keys in insertion order —
`Object.keys(subPackages)` (line 157).  `i` is the index of the first
element. -/
def objectKeysIdx : List (Option String) → Nat → List String
  | [], _ => []
  | some _ :: rest, i => toString i :: objectKeysIdx rest (i + 1)
  | none :: rest, i => objectKeysIdx rest (i + 1)

/-- `Object.keys(subPackages)` for `varray elems extras`. -/
def objectKeys (elems : List (Option String)) (extras : List String) : List String :=
  objectKeysIdx elems 0 ++ extras

/-- `subPackages.map(function (_, i) { return String(i); })` (line 158):
`Array.prototype.map` preserves holes. -/
def mapIndexStr : List (Option String) → Nat → List (Option String)
  | [], _ => []
  | some _ :: rest, i => some (toString i) :: mapIndexStr rest (i + 1)
  | none :: rest, i => none :: mapIndexStr rest (i + 1)

/-- The `main export has no additional properties` assertion condition
(lines 156–160): `deepEqual` of the dense key list against the hole-preserving
index-string map (a hole is never deep-equal to a string, and lists of
different lengths are never deep-equal). -/
def keysCheck (elems : List (Option String)) (extras : List String) : Bool :=
  decide ((objectKeys elems extras).map Option.some = mapIndexStr elems 0)

/-- The filter of `fs.readdirSync(packageDir)` (lines 163–169): drop hidden
entries, `node_modules`, `helpers` and `test`; otherwise keep the entry iff
`fs.statSync(d).isDirectory()` — note the script passes the bare entry name
`d`, which the OS resolves against the process working directory, and a
thrown `statSync` error propagates. -/
def filterDirsAux (env : Env) : List String → Except String (List String)
  | [] => .ok []
  | d :: rest =>
    if startsWithDot d || d = "node_modules" || d = "helpers" || d = "test" then
      filterDirsAux env rest
    else
      match env.stat d with
      | .error m => .error m
      | .ok isDir =>
        match filterDirsAux env rest with
        | .error m => .error m
        | .ok ds => .ok (if isDir then d :: ds else ds)

/-- `fs.readdirSync(packageDir).filter(...)` (lines 163–169). -/
def readdirFiltered (env : Env) (packageDir : String) : Except String (List String) :=
  match env.readdir packageDir with
  | .error m => .error m
  | .ok entries => filterDirsAux env entries

/-- Modelled from the spec, for comparison with `filterDirsAux`: the spec's
eligibility filter stats each entry as a child of the package directory
("eligible sub-directories **of the package directory**"), i.e. it stats
`packageDir/d` rather than the bare name `d`. -/
def filterDirsSpecAux (env : Env) (packageDir : String) :
    List String → Except String (List String)
  | [] => .ok []
  | d :: rest =>
    if startsWithDot d || d = "node_modules" || d = "helpers" || d = "test" then
      filterDirsSpecAux env packageDir rest
    else
      match env.stat (pathJoin packageDir d) with
      | .error m => .error m
      | .ok isDir =>
        match filterDirsSpecAux env packageDir rest with
        | .error m => .error m
        | .ok ds => .ok (if isDir then d :: ds else ds)

/-- Modelled from the spec: the eligible sub-directories of the package
directory (spec §4.3 check 4). -/
def readdirFilteredSpec (env : Env) (packageDir : String) :
    Except String (List String) :=
  match env.readdir packageDir with
  | .error m => .error m
  | .ok entries => filterDirsSpecAux env packageDir entries

/-- Result of `validateAPIModule`: a normal return (`some msg` when an
`EvalError` value is returned, `none` for `void undefined`), or an uncaught
exception propagating out of the function. -/
inductive RunResult where
  | ret (v : Option String)
  | thrown (msg : String)

/-- `validateAPIModule` (lines 143–188).  The argument is either a plain
module name (used as both name and package directory) or a `[name, dir]`
pair.  In multi mode: load the main export (returning its `EvalError` wrapper
at once on failure), assert it is an array, that its keys are exactly the
contiguous indices, that it is non-empty and equal to the filtered directory
listing, check the root `shim`, run the root auto probe, assert that
`require('./implementation')` — a path Node resolves relative to the
script's own directory — fails, then recursively validate each present
sub-package at `path.join(path.dirname(name), subPackage)`.  In single mode:
run `doActualValidation` and discard its return value (the script does not
`return` it), then return `void undefined`. -/
def validateAPIModule (env : Env) (cfg : Config)
    (nameOrFilePaths : String ⊕ String × String) : List TraceItem × RunResult :=
  let name := match nameOrFilePaths with | .inl s => s | .inr p => p.1
  let packageDir := match nameOrFilePaths with | .inl s => s | .inr p => p.2
  if cfg.isMulti then
    match requireOrEvalError env name with
    | .vevalError m => ([], .ret (some m))
    | .varray elems extras =>
      let t1 := TraceItem.assert "main export is an array of sub packages" true
      let t2 := TraceItem.assert "main export has no additional properties" (keysCheck elems extras)
      let t3 := TraceItem.assert "array is not empty" (decide (0 < elems.length))
      match readdirFiltered env packageDir with
      | .error m => ([t1, t2, t3], .thrown m)
      | .ok dirs =>
        let t4 := TraceItem.assert "main export subpackages matches dirs in the package root"
          (decide (elems = dirs.map Option.some))
        let shim := requireOrEvalError env (packageDir ++ "/shim")
        let t5 := TraceItem.assert "root shim is a function" (decide (typeofVal shim = "function"))
        let autoItems := testAutoModule env cfg "root: " packageDir true
        let implementation := requireOrEvalError env "./implementation"
        let t6 := TraceItem.assert "root lacks an `implementation` module" (isEvalErrorB implementation)
        let subItems := (elems.filterMap id).map (fun subPackage =>
          (doActualValidation env cfg (pathJoin (pathDirname name) subPackage)
            (pathJoin (pathDirname name) subPackage)).1)
        ([t1, t2, t3, t4, t5] ++ autoItems ++ [t6] ++ subItems.flatten, .ret none)
    | _ =>
      ([TraceItem.assert "main export is an array of sub packages" false],
       .thrown "subPackages.map is not a function")
  else
    ((doActualValidation env cfg packageDir name).1, .ret none)

/-- One top-level test unit (lines 190–198): the banner comment, the trace of
`validateAPIModule`, and `t.error(validateModule(t, filePath), 'expected no
error')`, which passes exactly when the returned value is not an error; an
exception escaping `validateAPIModule` is caught by tape and recorded as a
failure. -/
def runTestUnit (env : Env) (cfg : Config)
    (nameOrFilePaths : String ⊕ String × String) : List TraceItem :=
  let banner := TraceItem.comment "* ----------------------------- * #"
  match validateAPIModule env cfg nameOrFilePaths with
  | (tr, .ret v) => banner :: tr ++ [.assert "expected no error" v.isNone]
  | (tr, .thrown m) => banner :: tr ++ [.assert ("uncaught exception: " ++ m) false]

/-! ### Concrete test fixtures

Small closed environments used to evaluate the validator on concrete inputs.
`reqOf` builds a `require` function from a finite module registry; every
other name fails to resolve with Node's load error. -/

/-- A `require` resolving exactly the listed names. -/
def reqOf (l : List (String × JsVal)) : String → Except String JsVal :=
  fun s =>
    match l.lookup s with
    | some v => .ok v
    | none => .error ("Cannot find module " ++ s)

/-- Single-package run with no skip flags. -/
def cfgSingle : Config :=
  { isBound := false, isProperty := false, skipShimPolyfill := false
    skipAutoShim := false, isMulti := false }

/-- Multi-package run with `--skip-auto-shim` (so no probe process is
involved) and no other skip flags. -/
def cfgMultiQuiet : Config :=
  { isBound := false, isProperty := false, skipShimPolyfill := false
    skipAutoShim := true, isMulti := true }

/-- Single-package run with only `--skip-shim-returns-polyfill`. -/
def cfg7 : Config :=
  { isBound := false, isProperty := false, skipShimPolyfill := true
    skipAutoShim := false, isMulti := false }

/-- Multi-package root `root` declaring one sub-package `sub`; on disk
`root/sub` is a directory of the package directory, but at the process
working directory the name `sub` names a file, not a directory. -/
def env1 : Env :=
  { req := reqOf [("root", .varray [some "sub"] []), ("root/shim", .vfunc 1)]
    call := fun _ => .error "not callable"
    getProp := fun _ _ => .vundefined
    readdir := fun p => if p = "root" then .ok ["sub"] else .error "ENOENT"
    stat := fun p =>
      if p = "sub" then .ok false
      else if p = "root/sub" then .ok true
      else .error "ENOENT"
    scriptDir := "/validator" }

/-- Multi-package root `root` with one sub-package `sub` whose `shim` and
polyfill getter are functions returning distinct values, so the
shim-returns-polyfill reference equality fails if it is checked. -/
def env2 : Env :=
  { req := reqOf [("root", .varray [some "sub"] []), ("root/shim", .vfunc 1),
      ("sub", .vfunc 10), ("sub/implementation", .vfunc 11),
      ("sub/shim", .vfunc 12), ("sub/polyfill", .vfunc 13)]
    call := fun id =>
      if id = 12 then .ok (.vobj 1)
      else if id = 13 then .ok (.vobj 2)
      else .error "not callable"
    getProp := fun _ _ => .vundefined
    readdir := fun p => if p = "root" then .ok ["sub"] else .error "ENOENT"
    stat := fun p => if p = "sub" then .ok true else .error "ENOENT"
    scriptDir := "/validator" }

/-- Multi-package root `root` that DOES expose an `implementation` module
(`root/implementation` resolves), while `./implementation` — resolved
against the validator script's own directory — does not. -/
def env3 : Env :=
  { req := reqOf [("root", .varray [some "sub"] []), ("root/shim", .vfunc 1),
      ("root/implementation", .vfunc 9)]
    call := fun _ => .error "not callable"
    getProp := fun _ _ => .vundefined
    readdir := fun p => if p = "root" then .ok ["sub"] else .error "ENOENT"
    stat := fun p => if p = "sub" then .ok true else .error "ENOENT"
    scriptDir := "/validator" }

/-- A registry resolving only `y`; requiring `x` fails. -/
def env5 : Env :=
  { req := reqOf [("y", .vfunc 1)]
    call := fun _ => .error "not callable"
    getProp := fun _ _ => .vundefined
    readdir := fun _ => .error "ENOENT"
    stat := fun _ => .error "ENOENT"
    scriptDir := "/validator" }

/-- An empty module registry: requiring `mymod` fails to load. -/
def env6 : Env :=
  { req := reqOf []
    call := fun _ => .error "not callable"
    getProp := fun _ _ => .vundefined
    readdir := fun _ => .error "ENOENT"
    stat := fun _ => .error "ENOENT"
    scriptDir := "/validator" }

/-- Single package `p` whose `shim` sub-module is missing (its load fails),
while the main module, `implementation`, `polyfill` and `auto` all resolve;
the polyfill getter returns the main module itself. -/
def env7 : Env :=
  { req := reqOf [("p", .vfunc 1), ("p/implementation", .vfunc 2),
      ("p/polyfill", .vfunc 3), ("p/auto", .vfunc 4)]
    call := fun id => if id = 3 then .ok (.vfunc 1) else .error "not callable"
    getProp := fun _ _ => .vundefined
    readdir := fun _ => .error "ENOENT"
    stat := fun _ => .error "ENOENT"
    scriptDir := "/validator" }

/-- Package `pkg` exposing only an `auto` entry point. -/
def env8 : Env :=
  { req := reqOf [("pkg/auto", .vfunc 1)]
    call := fun _ => .error "not callable"
    getProp := fun _ _ => .vundefined
    readdir := fun _ => .error "ENOENT"
    stat := fun _ => .error "ENOENT"
    scriptDir := "/validator" }

/-- A registry whose module `mymod` loads successfully but exports an
`EvalError` instance as its value. -/
def env10 : Env :=
  { req := reqOf [("mymod", .vevalError "exported error")]
    call := fun _ => .error "not callable"
    getProp := fun _ _ => .vundefined
    readdir := fun _ => .error "ENOENT"
    stat := fun _ => .error "ENOENT"
    scriptDir := "/validator" }

/-- Run with every skip flag set (`--bound --property
--skip-shim-returns-polyfill --skip-auto-shim`), single mode. -/
def cfgAllSkips : Config :=
  { isBound := true, isProperty := true, skipShimPolyfill := true
    skipAutoShim := true, isMulti := false }

/-- Fully populated single package `q` whose shim is a function. -/
def env7w : Env :=
  { req := reqOf [("q", .vfunc 1), ("q/implementation", .vfunc 2),
      ("q/shim", .vfunc 3), ("q/polyfill", .vfunc 4)]
    call := fun _ => .error "not callable"
    getProp := fun _ _ => .vundefined
    readdir := fun _ => .error "ENOENT"
    stat := fun _ => .error "ENOENT"
    scriptDir := "/validator" }

/-! ### Claim theorems -/

/-- C5: the module loader never throws — for every name, a successful
resolution returns the loaded module unchanged, and any load error is
converted into an `EvalError` value carrying the original error message. -/
theorem c5_requireOrEvalError_never_throws (env : Env) (name : String) :
    (∀ v, env.req name = .ok v → requireOrEvalError env name = v) ∧
    (∀ m, env.req name = .error m → requireOrEvalError env name = .vevalError m) := by
  constructor <;> intro x h <;> simp [requireOrEvalError, h]

/-- Witness for C5 at a concrete registry: `y` resolves to its module, `x`
fails and comes back as an `EvalError` with the original message. -/
theorem c5_witness :
    requireOrEvalError env5 "y" = .vfunc 1 ∧
    requireOrEvalError env5 "x" = .vevalError "Cannot find module x" :=
  ⟨(c5_requireOrEvalError_never_throws env5 "y").1 _ rfl,
   (c5_requireOrEvalError_never_throws env5 "x").2 _ rfl⟩

/-- C1 (code bug): the script filters the package directory listing with
`fs.statSync(d)` on the bare entry name, which the OS resolves against the
process working directory, not the package directory.  In `env1`, `root/sub`
IS a directory of the package directory (so the claim's eligibility filter
keeps `sub`, and the declared sequence `['sub']` matches it), yet the code
stats `sub` at the working directory, where it is a file, drops it, and the
"matches dirs in the package root" assertion fails. -/
theorem c1_stat_resolved_against_cwd :
    env1.stat "root/sub" = .ok true ∧
    readdirFilteredSpec env1 "root" = .ok ["sub"] ∧
    readdirFiltered env1 "root" = .ok [] ∧
    TraceItem.assert "main export subpackages matches dirs in the package root" false
      ∈ (validateAPIModule env1 cfgMultiQuiet (Sum.inl "root")).1 := by
  refine ⟨rfl, rfl, rfl, ?_⟩
  have h : (validateAPIModule env1 cfgMultiQuiet (Sum.inl "root")).1 =
      [TraceItem.assert "main export is an array of sub packages" true,
       TraceItem.assert "main export has no additional properties" true,
       TraceItem.assert "array is not empty" true,
       TraceItem.assert "main export subpackages matches dirs in the package root" false,
       TraceItem.assert "root shim is a function" true,
       TraceItem.skipRecord "auto is present",
       TraceItem.assert "root lacks an `implementation` module" true] := rfl
  rw [h]
  simp

/-- C3 (code bug): the root-lacks-implementation check requires the literal
path `./implementation`, which Node resolves against the validator script's
own directory, not the multi-package root under validation.  In `env3` the
root DOES expose an `implementation` module (`root/implementation`
resolves), so by the claim the assertion must fail; but the script's load of
`./implementation` fails, and the assertion passes. -/
theorem c3_implementation_checked_at_script_dir :
    env3.req ("root" ++ "/implementation") = .ok (.vfunc 9) ∧
    env3.req "./implementation" = .error "Cannot find module ./implementation" ∧
    TraceItem.assert "root lacks an `implementation` module" true
      ∈ (validateAPIModule env3 cfgMultiQuiet (Sum.inl "root")).1 := by
  refine ⟨rfl, rfl, ?_⟩
  have h : (validateAPIModule env3 cfgMultiQuiet (Sum.inl "root")).1 =
      [TraceItem.assert "main export is an array of sub packages" true,
       TraceItem.assert "main export has no additional properties" true,
       TraceItem.assert "array is not empty" true,
       TraceItem.assert "main export subpackages matches dirs in the package root" true,
       TraceItem.assert "root shim is a function" true,
       TraceItem.skipRecord "auto is present",
       TraceItem.assert "root lacks an `implementation` module" true] := rfl
  rw [h]
  simp

/-- C6 (code bug): in single mode the script discards `doActualValidation`'s
returned `EvalError` (`validateAPIModule` ends with `return void undefined`),
so when the main module fails to load the whole unit emits no check at all
and the final `expected no error` assertion PASSES — the load failure is
never reported as the unit's outcome. -/
theorem c6_load_failure_not_reported :
    env6.req "mymod" = .error "Cannot find module mymod" ∧
    runTestUnit env6 cfgSingle (Sum.inl "mymod") =
      [TraceItem.comment "* ----------------------------- * #",
       TraceItem.assert "expected no error" true] :=
  ⟨rfl, rfl⟩

/-- C10 counterexample: in single mode, a module that loads successfully but
exports an `EvalError` instance is treated as a load failure —
`doActualValidation` returns at once — but its returned value is discarded,
so the `expected no error` assertion PASSES, contradicting the claim that it
is reported as failed. -/
theorem c10_counterexample :
    env10.req "mymod" = .ok (.vevalError "exported error") ∧
    runTestUnit env10 cfgSingle (Sum.inl "mymod") =
      [TraceItem.comment "* ----------------------------- * #",
       TraceItem.assert "expected no error" true] :=
  ⟨rfl, rfl⟩

/-- C10 amended: whenever the main module loads successfully but its exported
value is an `EvalError` instance, the validator cannot distinguish it from a
load failure: the single-package validator emits no checks and returns the
value; in multi mode the value propagates and the `expected no error`
assertion fails, while in single mode the returned value is discarded and
the assertion passes. -/
theorem c10_exported_evalerror_indistinguishable (env : Env) (cfg : Config)
    (name m : String) (h : env.req name = .ok (.vevalError m)) :
    (doActualValidation env cfg name name).1 = [] ∧
    (doActualValidation env cfg name name).2 = some m ∧
    (cfg.isMulti = true →
      runTestUnit env cfg (Sum.inl name) =
        [TraceItem.comment "* ----------------------------- * #",
         TraceItem.assert "expected no error" false]) ∧
    (cfg.isMulti = false →
      runTestUnit env cfg (Sum.inl name) =
        [TraceItem.comment "* ----------------------------- * #",
         TraceItem.assert "expected no error" true]) := by
  have hreq : requireOrEvalError env name = .vevalError m := by
    simp [requireOrEvalError, h]
  refine ⟨?_, ?_, ?_, ?_⟩
  · simp [doActualValidation, hreq, isEvalErrorB]
  · simp [doActualValidation, hreq, isEvalErrorB, evalErrorMsg]
  · intro hm; simp [runTestUnit, validateAPIModule, hreq, hm]
  · intro hm
    simp [runTestUnit, validateAPIModule, hreq, hm, doActualValidation, isEvalErrorB]

/-- Witness for C10's amended theorem in multi mode: the exported
`EvalError` makes the whole unit fail with no checks run. -/
theorem c10_witness :
    runTestUnit env10 cfgMultiQuiet (Sum.inl "mymod") =
      [TraceItem.comment "* ----------------------------- * #",
       TraceItem.assert "expected no error" false] :=
  (c10_exported_evalerror_indistinguishable env10 cfgMultiQuiet "mymod"
    "exported error" rfl).2.2.1 rfl

/-! ### Trace-shape helper lemmas -/

/-- `eqToCallAssert` always emits an assertion with the given description. -/
lemma eqToCallAssert_shape (env : Env) (d : String) (lhs f : JsVal) :
    ∃ b, eqToCallAssert env d lhs f = TraceItem.assert d b := by
  unfold eqToCallAssert
  cases callVal env f <;> exact ⟨_, rfl⟩

/-- `callEqCallAssert` always emits an assertion with the given description. -/
lemma callEqCallAssert_shape (env : Env) (d : String) (f g : JsVal) :
    ∃ b, callEqCallAssert env d f g = TraceItem.assert d b := by
  unfold callEqCallAssert
  cases callVal env f <;> cases callVal env g <;> exact ⟨_, rfl⟩

/-- A string whose final character is not `o` is not of the form
`s ++ "auto"`. -/
lemma ne_append_auto (d : String) (h : d.data.getLast? ≠ some 'o') :
    ∀ s : String, d ≠ s ++ "auto" := by
  intro s he
  apply h
  rw [he, String.data_append, List.getLast?_append_of_ne_nil _ (by decide)]
  rfl

/-- Unfolding of `doActualValidation` when the main module loads and is not
an `EvalError` instance: the five subtest segments in order. -/
lemma doActualValidation_decomp (env : Env) (cfg : Config) (pkg name : String)
    (module : JsVal) (hreq : env.req name = .ok module)
    (hne : isEvalErrorB module = false) :
    doActualValidation env cfg pkg name =
      (exportSubtest env cfg module (requireOrEvalError env (pkg ++ "/polyfill"))
        ++ implementationSubtest env cfg module (requireOrEvalError env (pkg ++ "/implementation"))
        ++ polyfillSubtest env cfg module (requireOrEvalError env (pkg ++ "/polyfill"))
        ++ shimSubtest env cfg (requireOrEvalError env (pkg ++ "/shim"))
            (requireOrEvalError env (pkg ++ "/polyfill")) module
        ++ testAutoModule env cfg
            (if cfg.isMulti then pathBasename pkg ++ ": " else "") pkg false,
       none) := by
  have hroe : requireOrEvalError env name = module := by
    simp [requireOrEvalError, hreq]
  simp [doActualValidation, hroe, hne]

/-- No assertion with a description other than the export subtest's two
descriptions appears in the export subtest. -/
lemma assert_not_mem_exportSubtest (env : Env) (cfg : Config) (m g : JsVal)
    (d : String) (b : Bool) (h1 : d ≠ "module is a function")
    (h2 : d ≠ "module.exports === getPolyfill()") :
    TraceItem.assert d b ∉ exportSubtest env cfg m g := by
  obtain ⟨b2, hb2⟩ := eqToCallAssert_shape env "module.exports === getPolyfill()" m g
  unfold exportSubtest
  cases hbnd : cfg.isBound <;> simp [hbnd, hb2, h1, h2]

/-- With `--bound` set, the export subtest contains no assertion besides the
type check — in particular no bound-identity assertion. -/
lemma assert_not_mem_exportSubtest_of_bound (env : Env) (cfg : Config)
    (m g : JsVal) (d : String) (b : Bool) (hbnd : cfg.isBound = true)
    (h1 : d ≠ "module is a function") :
    TraceItem.assert d b ∉ exportSubtest env cfg m g := by
  unfold exportSubtest
  simp [hbnd, h1]

/-- No assertion with a foreign description appears in the implementation
subtest. -/
lemma assert_not_mem_implementationSubtest (env : Env) (cfg : Config)
    (m impl : JsVal) (d : String) (b : Bool)
    (h1 : d ≠ "module.exports.implementation === implementation.js")
    (h2 : d ≠ "implementation is a function (pass `--property` to skip this test)") :
    TraceItem.assert d b ∉ implementationSubtest env cfg m impl := by
  unfold implementationSubtest
  cases hm : cfg.isMulti <;> cases hp : cfg.isProperty <;> simp [hm, hp, h1, h2]

/-- In multi mode the implementation linkage item is a skip record, so the
only assertion the implementation subtest can contain is the type check. -/
lemma assert_not_mem_implementationSubtest_of_multi (env : Env) (cfg : Config)
    (m impl : JsVal) (d : String) (b : Bool) (hm : cfg.isMulti = true)
    (h2 : d ≠ "implementation is a function (pass `--property` to skip this test)") :
    TraceItem.assert d b ∉ implementationSubtest env cfg m impl := by
  unfold implementationSubtest
  cases hp : cfg.isProperty <;> simp [hm, hp, h2]

/-- With `--property` set, the implementation subtest contains no
implementation-type assertion. -/
lemma assert_not_mem_implementationSubtest_of_property (env : Env) (cfg : Config)
    (m impl : JsVal) (d : String) (b : Bool) (hp : cfg.isProperty = true)
    (h1 : d ≠ "module.exports.implementation === implementation.js") :
    TraceItem.assert d b ∉ implementationSubtest env cfg m impl := by
  unfold implementationSubtest
  cases hm : cfg.isMulti <;> simp [hm, hp, h1]

/-- No assertion with a foreign description appears in the polyfill
subtest. -/
lemma assert_not_mem_polyfillSubtest (env : Env) (cfg : Config) (m g : JsVal)
    (d : String) (b : Bool)
    (h1 : d ≠ "module.exports.getPolyfill === polyfill.js")
    (h2 : d ≠ "getPolyfill is a function") :
    TraceItem.assert d b ∉ polyfillSubtest env cfg m g := by
  unfold polyfillSubtest
  cases hm : cfg.isMulti <;> simp [hm, h1, h2]

/-- In multi mode the polyfill linkage item is a skip record, so the only
assertion the polyfill subtest can contain is the type check. -/
lemma assert_not_mem_polyfillSubtest_of_multi (env : Env) (cfg : Config)
    (m g : JsVal) (d : String) (b : Bool) (hm : cfg.isMulti = true)
    (h2 : d ≠ "getPolyfill is a function") :
    TraceItem.assert d b ∉ polyfillSubtest env cfg m g := by
  unfold polyfillSubtest
  simp [hm, h2]

/-- In multi mode the shim linkage item is a skip record, so the shim
subtest can only contain the type check and the shim-returns-polyfill
assertion. -/
lemma assert_not_mem_shimSubtest_of_multi (env : Env) (cfg : Config)
    (sh g m : JsVal) (d : String) (b : Bool) (hm : cfg.isMulti = true)
    (h2 : d ≠ "shim is a function") (h3 : d ≠ shimPolyfillMsg) :
    TraceItem.assert d b ∉ shimSubtest env cfg sh g m := by
  obtain ⟨b2, hb2⟩ := callEqCallAssert_shape env shimPolyfillMsg sh g
  unfold shimSubtest
  by_cases hfn : typeofVal sh = "function" <;>
    cases hsp : cfg.skipShimPolyfill <;> simp [hm, hfn, hsp, hb2, h2, h3]

/-- No assertion with a foreign description appears in the shim subtest. -/
lemma assert_not_mem_shimSubtest (env : Env) (cfg : Config) (sh g m : JsVal)
    (d : String) (b : Bool)
    (h1 : d ≠ "module.exports.shim === shim.js")
    (h2 : d ≠ "shim is a function")
    (h3 : d ≠ shimPolyfillMsg) :
    TraceItem.assert d b ∉ shimSubtest env cfg sh g m := by
  obtain ⟨b2, hb2⟩ := callEqCallAssert_shape env shimPolyfillMsg sh g
  unfold shimSubtest
  cases hm : cfg.isMulti <;> by_cases hfn : typeofVal sh = "function" <;>
    cases hsp : cfg.skipShimPolyfill <;> simp [hm, hfn, hsp, hb2, h1, h2, h3]

/-- With `--skip-shim-returns-polyfill` set, the shim subtest contains no
shim-returns-polyfill assertion. -/
lemma assert_not_mem_shimSubtest_of_skipPolyfill (env : Env) (cfg : Config)
    (sh g m : JsVal) (d : String) (b : Bool) (hsp : cfg.skipShimPolyfill = true)
    (h1 : d ≠ "module.exports.shim === shim.js")
    (h2 : d ≠ "shim is a function") :
    TraceItem.assert d b ∉ shimSubtest env cfg sh g m := by
  unfold shimSubtest
  cases hm : cfg.isMulti <;> by_cases hfn : typeofVal sh = "function" <;>
    simp [hm, hfn, hsp, h1, h2]

/-- No assertion whose description cannot end in `auto` appears in the auto
subtest. -/
lemma assert_not_mem_testAuto (env : Env) (cfg : Config) (pre pkg : String)
    (asMulti : Bool) (d : String) (b : Bool) (hd : ∀ s : String, d ≠ s ++ "auto") :
    TraceItem.assert d b ∉ testAutoModule env cfg pre pkg asMulti := by
  unfold testAutoModule
  cases hs : cfg.skipAutoShim with
  | true => simp [hs]
  | false =>
    cases hra : env.req (pathJoin pkg "/auto") with
    | error e => simp [hs, hra, hd pre]
    | ok v => simp [hs, hra]

/-- No probe process is spawned by the export subtest. -/
lemma spawn_not_mem_exportSubtest (env : Env) (cfg : Config) (m g : JsVal)
    (s c io : String) (p : Nat) (cd : String) (f : Int → Bool) :
    TraceItem.spawn s c io p cd f ∉ exportSubtest env cfg m g := by
  obtain ⟨b2, hb2⟩ := eqToCallAssert_shape env "module.exports === getPolyfill()" m g
  unfold exportSubtest
  cases hbnd : cfg.isBound <;> simp [hbnd, hb2]

/-- No probe process is spawned by the implementation subtest. -/
lemma spawn_not_mem_implementationSubtest (env : Env) (cfg : Config)
    (m impl : JsVal) (s c io : String) (p : Nat) (cd : String) (f : Int → Bool) :
    TraceItem.spawn s c io p cd f ∉ implementationSubtest env cfg m impl := by
  unfold implementationSubtest
  cases hm : cfg.isMulti <;> cases hp : cfg.isProperty <;> simp [hm, hp]

/-- No probe process is spawned by the polyfill subtest. -/
lemma spawn_not_mem_polyfillSubtest (env : Env) (cfg : Config) (m g : JsVal)
    (s c io : String) (p : Nat) (cd : String) (f : Int → Bool) :
    TraceItem.spawn s c io p cd f ∉ polyfillSubtest env cfg m g := by
  unfold polyfillSubtest
  cases hm : cfg.isMulti <;> simp [hm]

/-- No probe process is spawned by the shim subtest. -/
lemma spawn_not_mem_shimSubtest (env : Env) (cfg : Config) (sh g m : JsVal)
    (s c io : String) (p : Nat) (cd : String) (f : Int → Bool) :
    TraceItem.spawn s c io p cd f ∉ shimSubtest env cfg sh g m := by
  obtain ⟨b2, hb2⟩ := callEqCallAssert_shape env shimPolyfillMsg sh g
  unfold shimSubtest
  cases hm : cfg.isMulti <;> by_cases hfn : typeofVal sh = "function" <;>
    cases hsp : cfg.skipShimPolyfill <;> simp [hm, hfn, hsp, hb2]

/-- With `--skip-auto-shim` set, the auto subtest spawns no probe process. -/
lemma spawn_not_mem_testAuto_of_skip (env : Env) (cfg : Config) (pre pkg : String)
    (asMulti : Bool) (hs : cfg.skipAutoShim = true)
    (s c io : String) (p : Nat) (cd : String) (f : Int → Bool) :
    TraceItem.spawn s c io p cd f ∉ testAutoModule env cfg pre pkg asMulti := by
  unfold testAutoModule
  simp [hs]

/-- Trace part of `doActualValidation_decomp`. -/
lemma doActualValidation_trace_decomp (env : Env) (cfg : Config)
    (pkg name : String) (module : JsVal) (hreq : env.req name = .ok module)
    (hne : isEvalErrorB module = false) :
    (doActualValidation env cfg pkg name).1 =
      exportSubtest env cfg module (requireOrEvalError env (pkg ++ "/polyfill"))
        ++ implementationSubtest env cfg module (requireOrEvalError env (pkg ++ "/implementation"))
        ++ polyfillSubtest env cfg module (requireOrEvalError env (pkg ++ "/polyfill"))
        ++ shimSubtest env cfg (requireOrEvalError env (pkg ++ "/shim"))
            (requireOrEvalError env (pkg ++ "/polyfill")) module
        ++ testAutoModule env cfg
            (if cfg.isMulti then pathBasename pkg ++ ": " else "") pkg false := by
  rw [doActualValidation_decomp env cfg pkg name module hreq hne]

/-- C2 amended: in multi mode, once a sub-package's main module loads, the
three linkage checks (implementation, polyfill getter, shim) are emitted as
skip records and never as assertions; the shim-produces-polyfill check,
however, is governed solely by `--skip-shim-returns-polyfill`: whenever the
loaded shim is a function it is emitted as a genuine assertion if the flag
is unset and as a skip record if the flag is set, independent of multi
mode. -/
theorem c2_linkage_skipped_shim_polyfill_runs (env : Env) (cfg : Config)
    (pkg name : String) (module : JsVal) (tr : List TraceItem)
    (hm : cfg.isMulti = true)
    (hreq : env.req name = .ok module)
    (hne : isEvalErrorB module = false)
    (htr : tr = (doActualValidation env cfg pkg name).1) :
    (TraceItem.skipRecord "module.exports.implementation === implementation.js" ∈ tr ∧
     TraceItem.skipRecord "module.exports.getPolyfill === polyfill.js" ∈ tr ∧
     TraceItem.skipRecord "module.exports.shim === shim.js" ∈ tr) ∧
    ((∀ b, TraceItem.assert "module.exports.implementation === implementation.js" b ∉ tr) ∧
     (∀ b, TraceItem.assert "module.exports.getPolyfill === polyfill.js" b ∉ tr) ∧
     (∀ b, TraceItem.assert "module.exports.shim === shim.js" b ∉ tr)) ∧
    (typeofVal (requireOrEvalError env (pkg ++ "/shim")) = "function" →
      cfg.skipShimPolyfill = false →
      callEqCallAssert env shimPolyfillMsg (requireOrEvalError env (pkg ++ "/shim"))
        (requireOrEvalError env (pkg ++ "/polyfill")) ∈ tr) ∧
    (typeofVal (requireOrEvalError env (pkg ++ "/shim")) = "function" →
      cfg.skipShimPolyfill = true →
      TraceItem.skipRecord shimPolyfillMsg ∈ tr) := by
  subst htr
  rw [doActualValidation_trace_decomp env cfg pkg name module hreq hne]
  refine ⟨⟨?_, ?_, ?_⟩, ⟨?_, ?_, ?_⟩, ?_, ?_⟩
  · simp [implementationSubtest, hm]
  · simp [polyfillSubtest, hm]
  · simp [shimSubtest, hm]
  · intro b
    simp only [List.mem_append, not_or]
    exact ⟨⟨⟨⟨assert_not_mem_exportSubtest _ _ _ _ _ _ (by decide) (by decide),
      assert_not_mem_implementationSubtest_of_multi _ _ _ _ _ _ hm (by decide)⟩,
      assert_not_mem_polyfillSubtest _ _ _ _ _ _ (by decide) (by decide)⟩,
      assert_not_mem_shimSubtest _ _ _ _ _ _ _ (by decide) (by decide) (by decide)⟩,
      assert_not_mem_testAuto _ _ _ _ _ _ _ (ne_append_auto _ (by decide))⟩
  · intro b
    simp only [List.mem_append, not_or]
    exact ⟨⟨⟨⟨assert_not_mem_exportSubtest _ _ _ _ _ _ (by decide) (by decide),
      assert_not_mem_implementationSubtest _ _ _ _ _ _ (by decide) (by decide)⟩,
      assert_not_mem_polyfillSubtest_of_multi _ _ _ _ _ _ hm (by decide)⟩,
      assert_not_mem_shimSubtest _ _ _ _ _ _ _ (by decide) (by decide) (by decide)⟩,
      assert_not_mem_testAuto _ _ _ _ _ _ _ (ne_append_auto _ (by decide))⟩
  · intro b
    simp only [List.mem_append, not_or]
    exact ⟨⟨⟨⟨assert_not_mem_exportSubtest _ _ _ _ _ _ (by decide) (by decide),
      assert_not_mem_implementationSubtest _ _ _ _ _ _ (by decide) (by decide)⟩,
      assert_not_mem_polyfillSubtest _ _ _ _ _ _ (by decide) (by decide)⟩,
      assert_not_mem_shimSubtest_of_multi _ _ _ _ _ _ _ hm (by decide) (by decide)⟩,
      assert_not_mem_testAuto _ _ _ _ _ _ _ (ne_append_auto _ (by decide))⟩
  · intro hfn hsp
    simp [shimSubtest, hm, hfn, hsp]
  · intro hfn hsp
    simp [shimSubtest, hm, hfn, hsp]

/-- Witness for C2's amended theorem at `env2`: the sub-package `sub` gets
skip records for the three linkage checks, while its shim-returns-polyfill
check is emitted as a genuine assertion. -/
theorem c2_witness :
    TraceItem.skipRecord "module.exports.implementation === implementation.js"
      ∈ (doActualValidation env2 cfgMultiQuiet "sub" "sub").1 ∧
    callEqCallAssert env2 shimPolyfillMsg (requireOrEvalError env2 ("sub" ++ "/shim"))
      (requireOrEvalError env2 ("sub" ++ "/polyfill"))
      ∈ (doActualValidation env2 cfgMultiQuiet "sub" "sub").1 := by
  have h := c2_linkage_skipped_shim_polyfill_runs env2 cfgMultiQuiet "sub" "sub"
    (.vfunc 10) _ rfl rfl rfl rfl
  exact ⟨h.1.1, h.2.2.1 rfl rfl⟩

/-- C2 counterexample: in a multi-mode run (`--skip-shim-returns-polyfill`
not passed), the recursive sub-package validation does NOT skip the
shim-produces-polyfill check: `env2`'s sub-package trace contains a genuine
(failing) assertion for it, not a skip record. -/
theorem c2_counterexample :
    cfgMultiQuiet.isMulti = true ∧ cfgMultiQuiet.skipShimPolyfill = false ∧
    TraceItem.assert shimPolyfillMsg false
      ∈ (validateAPIModule env2 cfgMultiQuiet (Sum.inl "root")).1 := by
  refine ⟨rfl, rfl, ?_⟩
  have h : (validateAPIModule env2 cfgMultiQuiet (Sum.inl "root")).1 =
      [TraceItem.assert "main export is an array of sub packages" true,
       TraceItem.assert "main export has no additional properties" true,
       TraceItem.assert "array is not empty" true,
       TraceItem.assert "main export subpackages matches dirs in the package root" true,
       TraceItem.assert "root shim is a function" true,
       TraceItem.skipRecord "auto is present",
       TraceItem.assert "root lacks an `implementation` module" true,
       TraceItem.assert "module is a function" true,
       TraceItem.assert "module.exports === getPolyfill()" false,
       TraceItem.skipRecord "module.exports.implementation === implementation.js",
       TraceItem.assert "implementation is a function (pass `--property` to skip this test)" true,
       TraceItem.skipRecord "module.exports.getPolyfill === polyfill.js",
       TraceItem.assert "getPolyfill is a function" true,
       TraceItem.skipRecord "module.exports.shim === shim.js",
       TraceItem.assert "shim is a function" true,
       TraceItem.assert shimPolyfillMsg false,
       TraceItem.skipRecord "auto is present"] := rfl
  rw [h]
  simp

/-- C7 counterexample: with `--skip-shim-returns-polyfill` set but the `shim`
sub-module failing to load (so `typeof shim` is not `'function'`), the run
emits NEITHER the shim-returns-polyfill check NOR a skip record for it — the
flag's check is silently omitted. -/
theorem c7_counterexample :
    cfg7.skipShimPolyfill = true ∧
    TraceItem.skipRecord shimPolyfillMsg ∉ (doActualValidation env7 cfg7 "p" "p").1 ∧
    ∀ b, TraceItem.assert shimPolyfillMsg b ∉ (doActualValidation env7 cfg7 "p" "p").1 := by
  have h : (doActualValidation env7 cfg7 "p" "p").1 =
      [TraceItem.assert "module is a function" true,
       TraceItem.assert "module.exports === getPolyfill()" true,
       TraceItem.assert "module.exports.implementation === implementation.js" false,
       TraceItem.assert "implementation is a function (pass `--property` to skip this test)" true,
       TraceItem.assert "module.exports.getPolyfill === polyfill.js" false,
       TraceItem.assert "getPolyfill is a function" true,
       TraceItem.assert "module.exports.shim === shim.js" false,
       TraceItem.assert "shim is a function" false,
       TraceItem.comment "auto is present (pass `--skip-auto-shim` to skip this test)",
       TraceItem.spawn "/validator/autoTest.js" "p" "inherit" 1 "auto invokes shim" autoOnClose] := rfl
  refine ⟨rfl, ?_, ?_⟩
  · rw [h]; simp [shimPolyfillMsg]
  · intro b; rw [h]; simp [shimPolyfillMsg]

/-- The dense key list maps onto the hole-preserving index map exactly when
the array has no holes and no extra enumerable keys (generalized over the
starting index). -/
lemma keys_eq_mapIndex_iff (elems : List (Option String)) (i : Nat)
    (extras : List String) :
    ((objectKeysIdx elems i ++ extras).map Option.some = mapIndexStr elems i)
      ↔ (elems.all Option.isSome = true ∧ extras = []) := by
  induction elems generalizing i with
  | nil => simp [objectKeysIdx, mapIndexStr]
  | cons o rest ih =>
    cases o with
    | some s =>
      simp only [objectKeysIdx, mapIndexStr, List.cons_append, List.map_cons,
        List.cons.injEq, true_and, List.all_cons, Option.isSome_some, Bool.true_and]
      exact ih (i + 1)
    | none =>
      simp only [objectKeysIdx, mapIndexStr, List.all_cons, Option.isSome_none,
        Bool.false_and]
      constructor
      · intro hEq
        exfalso
        cases hl : objectKeysIdx rest (i + 1) ++ extras with
        | nil => rw [hl] at hEq; simp at hEq
        | cons a t => rw [hl] at hEq; simp at hEq
      · rintro ⟨hfalse, -⟩
        simp at hfalse

/-- On a hole-free array, the enumerable index keys are the decimal strings
of the contiguous range starting at `i`. -/
lemma objectKeysIdx_of_all_isSome (elems : List (Option String)) (i : Nat)
    (h : elems.all Option.isSome = true) :
    objectKeysIdx elems i = (List.range' i elems.length).map (fun n => toString n) := by
  induction elems generalizing i with
  | nil => simp [objectKeysIdx]
  | cons o rest ih =>
    cases o with
    | some s =>
      have h' : rest.all Option.isSome = true := by simpa using h
      simp [objectKeysIdx, List.range'_succ, ih (i + 1) h']
    | none => simp at h

/-- C9: the multi-mode "no additional properties" assertion accepts the main
export exactly when it is a dense sequence with no extra enumerable
properties, and in that case its enumerable keys are exactly the contiguous
index strings `0 .. n-1` in order; a sparse or augmented sequence fails the
assertion. -/
theorem c9_keys_exact (elems : List (Option String)) (extras : List String) :
    (keysCheck elems extras = true ↔ (elems.all Option.isSome = true ∧ extras = []))
    ∧ (keysCheck elems extras = true →
        objectKeys elems extras = (List.range elems.length).map (fun n => toString n)) := by
  have hiff := keys_eq_mapIndex_iff elems 0 extras
  constructor
  · rw [keysCheck, decide_eq_true_eq, objectKeys]
    exact hiff
  · intro hk
    rw [keysCheck, decide_eq_true_eq, objectKeys] at hk
    obtain ⟨hall, hex⟩ := hiff.mp hk
    subst hex
    rw [objectKeys, List.append_nil, objectKeysIdx_of_all_isSome elems 0 hall,
      List.range_eq_range']

/-- Witness for C9: a dense two-element sequence passes and its keys are
exactly `["0", "1"]`; a sparse sequence and an augmented one both fail. -/
theorem c9_witness :
    keysCheck [some "a", some "b"] [] = true ∧
    objectKeys [some "a", some "b"] [] = ["0", "1"] ∧
    keysCheck [some "a", none] [] = false ∧
    keysCheck [some "a"] ["extra"] = false := by
  refine ⟨(c9_keys_exact [some "a", some "b"] []).1.mpr (by decide),
    ((c9_keys_exact [some "a", some "b"] []).2
      ((c9_keys_exact [some "a", some "b"] []).1.mpr (by decide))).trans (by decide),
    ?_, ?_⟩
  · have h := (c9_keys_exact [some "a", none] []).1
    cases hk : keysCheck [some "a", none] [] with
    | false => rfl
    | true => exact absurd (h.mp hk) (by decide)
  · have h := (c9_keys_exact [some "a"] ["extra"]).1
    cases hk : keysCheck [some "a"] ["extra"] with
    | false => rfl
    | true => exact absurd (h.mp hk) (by decide)

/-- C8: every side-effect probe that runs (auto-shim not skipped, the `auto`
entry loads) spawns the mode-appropriate probe script from the validator's
directory with the child working directory set to the package directory and
inherited stdio, declares a plan of exactly one assertion, and registers a
single close-handler assertion that holds exactly when the child exit code
is 0. -/
theorem c8_probe_contract (env : Env) (cfg : Config) (pre pkg : String)
    (asMulti : Bool) (hskip : cfg.skipAutoShim = false) (mod : JsVal)
    (hauto : env.req (pathJoin pkg "/auto") = .ok mod) :
    testAutoModule env cfg pre pkg asMulti =
      [TraceItem.comment "auto is present (pass `--skip-auto-shim` to skip this test)",
       TraceItem.spawn
         (pathJoin env.scriptDir (if asMulti then "multiAutoTest.js" else "autoTest.js"))
         pkg "inherit" 1 "auto invokes shim" autoOnClose]
    ∧ ∀ code : Int, autoOnClose code = true ↔ code = 0 := by
  constructor
  · simp [testAutoModule, hskip, hauto]
  · intro code
    simp [autoOnClose]

/-- Witness for C8: in `env8` the single-mode probe is spawned from the
validator directory, rooted at `pkg`, with inherited stdio, a plan of one,
and a close assertion satisfied by exit code 0. -/
theorem c8_witness :
    testAutoModule env8 cfgSingle "" "pkg" false =
      [TraceItem.comment "auto is present (pass `--skip-auto-shim` to skip this test)",
       TraceItem.spawn "/validator/autoTest.js" "pkg" "inherit" 1
         "auto invokes shim" autoOnClose]
    ∧ autoOnClose 0 = true := by
  have h := c8_probe_contract env8 cfgSingle "" "pkg" false rfl (.vfunc 1) rfl
  exact ⟨h.1, (h.2 0).mpr rfl⟩

/-- C4: in multi mode, once the main export loads as an array and the
directory listing succeeds, the emitted trace ends with the single-package
validations of the declared sub-packages, each run against the directory
`path.join(path.dirname(name), subPackage)` — the sibling of the main
module's file location joined with the sub-package name (used both as the
package directory and as the name to load). -/
theorem c4_subpackage_dirs (env : Env) (cfg : Config) (name : String)
    (elems : List (Option String)) (extras : List String) (dirs : List String)
    (hm : cfg.isMulti = true)
    (hreq : env.req name = .ok (.varray elems extras))
    (hdirs : readdirFiltered env name = .ok dirs) :
    ((elems.filterMap id).map (fun subPackage =>
        (doActualValidation env cfg (pathJoin (pathDirname name) subPackage)
          (pathJoin (pathDirname name) subPackage)).1)).flatten
      <:+ (validateAPIModule env cfg (Sum.inl name)).1
    ∧ (validateAPIModule env cfg (Sum.inl name)).2 = RunResult.ret none := by
  have hroe : requireOrEvalError env name = .varray elems extras := by
    simp [requireOrEvalError, hreq]
  constructor
  · simp only [validateAPIModule, hm, hroe, hdirs, if_true]
    exact List.suffix_append _ _
  · simp only [validateAPIModule, hm, hroe, hdirs, if_true]

/-- Witness for C4 at `env2`: the root trace is followed by the recursive
validation of `sub` at directory `path.join(path.dirname('root'), 'sub')`. -/
theorem c4_witness :
    (([some "sub"].filterMap id).map (fun subPackage =>
        (doActualValidation env2 cfgMultiQuiet (pathJoin (pathDirname "root") subPackage)
          (pathJoin (pathDirname "root") subPackage)).1)).flatten
      <:+ (validateAPIModule env2 cfgMultiQuiet (Sum.inl "root")).1
    ∧ (validateAPIModule env2 cfgMultiQuiet (Sum.inl "root")).2 = RunResult.ret none :=
  c4_subpackage_dirs env2 cfgMultiQuiet "root" [some "sub"] [] ["sub"] rfl rfl rfl

/-- C7 amended: each skip flag that is set disables its check and emits a
skip record whenever the check site is reached: `boundSkip`, `propertySkip`
and `autoShimSkip` do so unconditionally once the unit's main module loads
(for `autoShimSkip`, additionally no probe process is ever spawned), while
`shimReturnsPolyfillSkip` emits its skip record only when the loaded shim is
a function — with a non-function shim the gated check and its skip record
are both omitted. -/
theorem c7_flags_emit_skip_records (env : Env) (cfg : Config) (pkg name : String)
    (module : JsVal) (tr : List TraceItem)
    (hreq : env.req name = .ok module)
    (hne : isEvalErrorB module = false)
    (htr : tr = (doActualValidation env cfg pkg name).1) :
    (cfg.isBound = true →
      TraceItem.skipRecord boundTestDesc ∈ tr ∧
      ∀ b, TraceItem.assert "module.exports === getPolyfill()" b ∉ tr) ∧
    (cfg.isProperty = true →
      TraceItem.skipRecord "implementation that is a data property need not be a function" ∈ tr ∧
      ∀ b, TraceItem.assert
        "implementation is a function (pass `--property` to skip this test)" b ∉ tr) ∧
    (cfg.skipAutoShim = true →
      TraceItem.skipRecord "auto is present" ∈ tr ∧
      ∀ (s c io : String) (p : Nat) (cd : String) (f : Int → Bool),
        TraceItem.spawn s c io p cd f ∉ tr) ∧
    (cfg.skipShimPolyfill = true →
      typeofVal (requireOrEvalError env (pkg ++ "/shim")) = "function" →
      TraceItem.skipRecord shimPolyfillMsg ∈ tr ∧
      ∀ b, TraceItem.assert shimPolyfillMsg b ∉ tr) := by
  subst htr
  rw [doActualValidation_trace_decomp env cfg pkg name module hreq hne]
  refine ⟨?_, ?_, ?_, ?_⟩
  · intro hbnd
    constructor
    · simp [exportSubtest, hbnd]
    · intro b
      simp only [List.mem_append, not_or]
      exact ⟨⟨⟨⟨assert_not_mem_exportSubtest_of_bound _ _ _ _ _ _ hbnd (by decide),
        assert_not_mem_implementationSubtest _ _ _ _ _ _ (by decide) (by decide)⟩,
        assert_not_mem_polyfillSubtest _ _ _ _ _ _ (by decide) (by decide)⟩,
        assert_not_mem_shimSubtest _ _ _ _ _ _ _ (by decide) (by decide) (by decide)⟩,
        assert_not_mem_testAuto _ _ _ _ _ _ _ (ne_append_auto _ (by decide))⟩
  · intro hp
    constructor
    · simp [implementationSubtest, hp]
    · intro b
      simp only [List.mem_append, not_or]
      exact ⟨⟨⟨⟨assert_not_mem_exportSubtest _ _ _ _ _ _ (by decide) (by decide),
        assert_not_mem_implementationSubtest_of_property _ _ _ _ _ _ hp (by decide)⟩,
        assert_not_mem_polyfillSubtest _ _ _ _ _ _ (by decide) (by decide)⟩,
        assert_not_mem_shimSubtest _ _ _ _ _ _ _ (by decide) (by decide) (by decide)⟩,
        assert_not_mem_testAuto _ _ _ _ _ _ _ (ne_append_auto _ (by decide))⟩
  · intro hs
    constructor
    · simp [testAutoModule, hs]
    · intro s c io p cd f
      simp only [List.mem_append, not_or]
      exact ⟨⟨⟨⟨spawn_not_mem_exportSubtest _ _ _ _ _ _ _ _ _ _,
        spawn_not_mem_implementationSubtest _ _ _ _ _ _ _ _ _ _⟩,
        spawn_not_mem_polyfillSubtest _ _ _ _ _ _ _ _ _ _⟩,
        spawn_not_mem_shimSubtest _ _ _ _ _ _ _ _ _ _ _⟩,
        spawn_not_mem_testAuto_of_skip _ _ _ _ _ hs _ _ _ _ _ _⟩
  · intro hsp hfn
    constructor
    · simp [shimSubtest, hfn, hsp]
    · intro b
      simp only [List.mem_append, not_or]
      exact ⟨⟨⟨⟨assert_not_mem_exportSubtest _ _ _ _ _ _ (by decide) (by decide),
        assert_not_mem_implementationSubtest _ _ _ _ _ _ (by decide) (by decide)⟩,
        assert_not_mem_polyfillSubtest _ _ _ _ _ _ (by decide) (by decide)⟩,
        assert_not_mem_shimSubtest_of_skipPolyfill _ _ _ _ _ _ _ hsp (by decide) (by decide)⟩,
        assert_not_mem_testAuto _ _ _ _ _ _ _ (ne_append_auto _ (by decide))⟩

/-- Witness for C7's amended theorem: with all four flags set and a
function-valued shim, all four skip records are emitted. -/
theorem c7_witness :
    TraceItem.skipRecord boundTestDesc
      ∈ (doActualValidation env7w cfgAllSkips "q" "q").1 ∧
    TraceItem.skipRecord "implementation that is a data property need not be a function"
      ∈ (doActualValidation env7w cfgAllSkips "q" "q").1 ∧
    TraceItem.skipRecord "auto is present"
      ∈ (doActualValidation env7w cfgAllSkips "q" "q").1 ∧
    TraceItem.skipRecord shimPolyfillMsg
      ∈ (doActualValidation env7w cfgAllSkips "q" "q").1 := by
  have h := c7_flags_emit_skip_records env7w cfgAllSkips "q" "q" (.vfunc 1) _ rfl rfl rfl
  exact ⟨(h.1 rfl).1, (h.2.1 rfl).1, (h.2.2.1 rfl).1, (h.2.2.2 rfl (by rfl)).1⟩

end EsShimApi
